import Mathlib

/-!
Verification development for the COMP3133 Employee Management System backend
(Node.js / Apollo GraphQL / Mongoose).  The definitions below are a shallow
embedding of the authentication core and the resolvers:

* `utils/errors.js`       → `AppError`, `badInput`, `conflict`, `notFound`, `unauth`
* `models/User.js`        → `User`, `findByCredential`, `comparePassword`,
                            the pre-save hashing hook (`preSaveHash`, `saveUser`)
* `middleware/auth.js`    → `buildContext`, `requireAuth`, `signToken`
* `graphql/resolvers.js`  → `login`, `signup`, `getAllEmployees`, `me`
* `models/Employee.js`    → `Employee`

External libraries (bcryptjs, jsonwebtoken, the validator package's
`isEmail`) are modelled from the spec; each such definition says so in its
doc comment.
-/

/-- JS `String.prototype.startsWith`, computed on the character list. -/
def jsStartsWith (s pre : String) : Bool :=
  pre.data.isPrefixOf s.data

/-- JS `String.prototype.trim`: strip whitespace from both ends. -/
def jsTrim (s : String) : String :=
  String.mk (((s.data.dropWhile Char.isWhitespace).reverse.dropWhile Char.isWhitespace).reverse)

/-- JS `String.prototype.toLowerCase` (ASCII suffices for this code base). -/
def jsToLower (s : String) : String :=
  String.mk (s.data.map Char.toLower)

/-- Split a character list at every occurrence of the separator character. -/
def splitCharsOn (c : Char) : List Char → List Char → List (List Char)
  | [], acc => [acc.reverse]
  | x :: xs, acc =>
    if x == c then acc.reverse :: splitCharsOn c xs []
    else splitCharsOn c xs (x :: acc)

/-- JS `String.prototype.split` with a one-character separator. -/
def jsSplitOn (c : Char) (s : String) : List String :=
  (splitCharsOn c s.data []).map String.mk

/-- Parse a decimal numeral, failing on an empty or non-digit string. -/
def jsToNat (s : String) : Option Nat :=
  if s.data ≠ [] && s.data.all Char.isDigit then
    some (s.data.foldl (fun a c => a * 10 + (c.toNat - '0'.toNat)) 0)
  else none

/-- Error helper class from `utils/errors.js`: an `AppError` carries a
user-visible message, a stable code string and an HTTP status. -/
structure AppError where
  message : String
  code : String
  httpStatus : Nat
deriving Repr, DecidableEq

/-- Shortcut `badInput` from `utils/errors.js`. -/
def badInput (message : String) : AppError :=
  ⟨message, "BAD_USER_INPUT", 400⟩

/-- Shortcut `conflict` from `utils/errors.js`. -/
def conflict (message : String) : AppError :=
  ⟨message, "CONFLICT", 409⟩

/-- Shortcut `notFound` from `utils/errors.js`. -/
def notFound (entity : String) : AppError :=
  ⟨entity ++ " not found.", "NOT_FOUND", 404⟩

/-- Shortcut `unauth` from `utils/errors.js` (with its default message). -/
def unauth : AppError :=
  ⟨"You need to be logged in to do that.", "UNAUTHENTICATED", 401⟩

/-- Modelled from the spec: the bcryptjs library is a dependency, not part of
the repository source.  Spec 4.2 describes a deliberately slow salted one-way
hash with a fixed work factor.  We model a hash output as a record of the cost,
the salt, and an ideal (collision-free) digest that is a function of the salt
and the plaintext; the `digest` field stands for the one-way function output,
which for an ideal hash determines the `(salt, plaintext)` pair uniquely. -/
structure HashOutput where
  cost : Nat
  salt : Nat
  digest : String
deriving Repr, DecidableEq

/-- Modelled from the spec: `bcrypt.hash(plaintext, 12)` with a freshly random
salt; the salt is made explicit as an argument, freshness meaning distinct
salt values across calls. -/
def bcryptHash (cost : Nat) (salt : Nat) (plaintext : String) : HashOutput :=
  ⟨cost, salt, plaintext⟩

/-- Modelled from the spec: `bcrypt.compare(candidate, hash)` re-runs the hash
with the cost and salt embedded in the stored output and compares the digests. -/
def bcryptVerify (candidate : String) (h : HashOutput) : Bool :=
  bcryptHash h.cost h.salt candidate == h

/-- Value stored in a user document's `password` field: either the plaintext
(as set by the application before the pre-save hook runs) or a bcrypt hash
(what the hook writes). -/
inductive StoredSecret where
  | plain (s : String)
  | hashed (h : HashOutput)
deriving Repr, DecidableEq

/-- String value of the `password` field as JS sees it (a hash renders as its
digest record; only used on unreachable paths of the pre-save hook). -/
def StoredSecret.text : StoredSecret → String
  | .plain s => s
  | .hashed h => h.digest

/-- True exactly when the stored secret is a hash, not plaintext. -/
def StoredSecret.isHashed : StoredSecret → Bool
  | .plain _ => false
  | .hashed _ => true

/-- User document from `models/User.js`: username, lowercase-normalized email,
password (see `StoredSecret`), active flag and timestamps.  `passwordModified`
models mongoose's `isModified("password")` dirty flag, true when the password
was set since the last save. -/
structure User where
  id : Nat
  username : String
  email : String
  password : StoredSecret
  passwordModified : Bool
  is_active : Bool
  created_at : Nat
  updated_at : Nat
deriving Repr, DecidableEq

/-- Fresh user document before its first save: all fields just set, so the
password is still plaintext and marked modified (mongoose marks every path of
a new document as modified). -/
def newUserDoc (id : Nat) (username email password : String) (now : Nat) : User :=
  { id := id, username := username, email := email,
    password := .plain password, passwordModified := true,
    is_active := true, created_at := now, updated_at := now }

/-- Application-level password change on an existing document: sets the
plaintext and marks the path modified. -/
def setPassword (u : User) (pw : String) : User :=
  { u with password := .plain pw, passwordModified := true }

/-- Pre-save hook from `models/User.js`: if the password path was not modified
it does nothing, otherwise it replaces the field with `bcrypt.hash(password, 12)`. -/
def preSaveHash (salt : Nat) (u : User) : User :=
  if u.passwordModified then
    { u with password := .hashed (bcryptHash 12 salt u.password.text) }
  else u

/-- Saving a document runs the pre-save hook and then persists; after a save
mongoose clears the modified flags. -/
def saveUser (salt : Nat) (u : User) : User :=
  { preSaveHash salt u with passwordModified := false }

/-- Record persisted by mongoose `insertMany`, the path `scripts/seed.js`
uses for its sample users: `insertMany` does not trigger the `save`
middleware, so the pre-save hashing hook never runs and the password field is
persisted exactly as given — as plaintext. -/
def insertManyUser (id : Nat) (username email password : String) (now : Nat) : User :=
  { id := id, username := username, email := email,
    password := .plain password, passwordModified := false,
    is_active := true, created_at := now, updated_at := now }

/-- Persisted user states reachable through the program: created by a first
save of a fresh document, re-saved unchanged, re-saved after a password
change, re-saved after a profile (non-password) change, or inserted directly
by the seed script's `User.insertMany`, which bypasses the pre-save hook. -/
inductive PersistedUser : User → Prop where
  | created : ∀ id un em pw now salt,
      PersistedUser (saveUser salt (newUserDoc id un em pw now))
  | resaved : ∀ u salt, PersistedUser u → PersistedUser (saveUser salt u)
  | password_changed : ∀ u pw salt, PersistedUser u →
      PersistedUser (saveUser salt (setPassword u pw))
  | profile_changed : ∀ u un em salt, PersistedUser u →
      PersistedUser (saveUser salt { u with username := un, email := em })
  | insert_many : ∀ id un em pw now,
      PersistedUser (insertManyUser id un em pw now)

/-- Static `findByCredential` from `models/User.js`: one `findOne` matching the
identifier case-sensitively against `username` or lower-cased against `email`
(the query path that includes the otherwise-hidden password field). -/
def findByCredential (db : List User) (usernameOrEmail : String) : Option User :=
  db.find? (fun u => u.username == usernameOrEmail || u.email == jsToLower usernameOrEmail)

/-- Method `comparePassword` from `models/User.js`: `bcrypt.compare(candidate,
this.password)`; comparing against a value that is not a bcrypt hash fails. -/
def comparePassword (u : User) (candidate : String) : Bool :=
  match u.password with
  | .hashed h => bcryptVerify candidate h
  | .plain _ => false

/-- Mongoose `findById` (password field excluded by default, which this model
ignores since the callers only read identity fields). -/
def findById (db : List User) (id : Nat) : Option User :=
  db.find? (fun u => u.id == id)

/-- Process configuration consumed by the auth core: the JWT signing secret,
the raw `JWT_EXPIRES_IN` environment string (absent or possibly empty), and
the time-to-live in seconds that the jsonwebtoken library derives from it. -/
structure Env where
  jwt_secret : String
  jwt_expires_in : Option String
  ttl : Nat
deriving Repr, DecidableEq

/-- Value of the JS expression `process.env.JWT_EXPIRES_IN || "7d"`: the `||`
falls through to the default on an absent or empty string. -/
def jwtExpiresIn (env : Env) : String :=
  match env.jwt_expires_in with
  | none => "7d"
  | some s => if s = "" then "7d" else s

/-- Token claims carried by a signed token: subject (`userId`), issued-at and
expiry, per spec 3 and 4.3. -/
structure TokenPayload where
  userId : Nat
  iat : Nat
  exp : Nat
deriving Repr, DecidableEq

/-- Failure kinds of token verification per spec 4.3. -/
inductive VerifyError where
  | malformed
  | badSignature
  | expired
deriving Repr, DecidableEq

/-- Claims segment serialization of a token payload. -/
def encodeClaims (p : TokenPayload) : String :=
  toString p.userId ++ "," ++ toString p.iat ++ "," ++ toString p.exp

/-- Parse a claims segment back into a payload, failing on garbage. -/
def decodeClaims (s : String) : Option TokenPayload :=
  match jsSplitOn ',' s with
  | [a, b, c] =>
    match jsToNat a, jsToNat b, jsToNat c with
    | some x, some y, some z => some ⟨x, y, z⟩
    | _, _, _ => none
  | _ => none

/-- Modelled from the spec: the keyed signature of spec 4.3 (an HMAC over
header and claims with the server secret), as a small executable keyed hash. -/
def simpleMac (secret s : String) : Nat :=
  (secret ++ "|" ++ s).data.foldl (fun a c => (a * 131 + c.toNat) % 4294967296) 7

/-- Modelled from the spec: the jsonwebtoken library is a dependency, not part
of the repository source.  `jwt.sign` serializes the claims into a compact
three-part dotted structure (header, claims, signature) signed with the
server-held secret. -/
def jwtSign (secret : String) (p : TokenPayload) : String :=
  let claims := encodeClaims p
  "JWT." ++ claims ++ "." ++ toString (simpleMac secret claims)

/-- Modelled from the spec: `jwt.verify` structurally parses the token
(`Malformed` on failure), recomputes and compares the signature
(`BadSignature` on mismatch), then checks expiry against the current time
(`Expired` if elapsed), returning the claims on success. -/
def jwtVerify (secret : String) (now : Nat) (t : String) : Except VerifyError TokenPayload :=
  match jsSplitOn '.' t with
  | [hdr, claims, sig] =>
    if hdr ≠ "JWT" then .error .malformed
    else
      match decodeClaims claims with
      | none => .error .malformed
      | some p =>
        if sig ≠ toString (simpleMac secret claims) then .error .badSignature
        else if p.exp ≤ now then .error .expired
        else .ok p
  | _ => .error .malformed

/-- Helper `signToken` from `middleware/auth.js`: signs `{ userId }` with the
configured secret and the configured time-to-live. -/
def signToken (env : Env) (now : Nat) (userId : Nat) : String :=
  jwtSign env.jwt_secret ⟨userId, now, now + env.ttl⟩

/-- Per-request GraphQL context produced by `buildContext`: the authenticated
user, or `none` for an anonymous request. -/
structure Ctx where
  user : Option User
deriving Repr, DecidableEq

/-- Function `buildContext` from `middleware/auth.js`: reads the Authorization
header, returns anonymous when the header is missing or has no `Bearer `
scheme, when the remainder trims to empty, when `jwt.verify` fails for any
reason (the failure is swallowed), or when the subject's account is missing or
inactive; otherwise attaches the user. -/
def buildContext (env : Env) (now : Nat) (db : List User) (authorization : Option String) : Ctx :=
  let authHeader := authorization.getD ""
  if ¬ jsStartsWith authHeader "Bearer " then ⟨none⟩
  else
    let token := jsTrim (authHeader.drop 7)
    if token = "" then ⟨none⟩
    else
      match jwtVerify env.jwt_secret now token with
      | .error _ => ⟨none⟩
      | .ok decoded =>
        match findById db decoded.userId with
        | none => ⟨none⟩
        | some u => if ¬ u.is_active then ⟨none⟩ else ⟨some u⟩

/-- Guard `requireAuth` from `middleware/auth.js`: throws `unauth()` when the
context has no user, otherwise returns exactly the context's user. -/
def requireAuth (ctx : Ctx) : Except AppError User :=
  match ctx.user with
  | none => .error unauth
  | some u => .ok u

/-- Resolver `me` from `graphql/resolvers.js`: returns `requireAuth(context)`. -/
def me (ctx : Ctx) : Except AppError User :=
  requireAuth ctx

/-- Helper `requireField` from `utils/validators.js`: `if (!value ||
String(value).trim() === "")` throws a `BadInput` error; for a string value
`!value` means the empty string. -/
def requireField (value : String) (fieldName : String) : Except AppError Unit :=
  if value = "" ∨ jsTrim value = "" then
    .error (badInput ("\"" ++ fieldName ++ "\" is required — you can't leave it empty."))
  else .ok ()

/-- Modelled from the spec: `isEmail` comes from the validator npm library
(re-exported through express-validator), a dependency whose source is not in
this repository; modelled as a minimal executable shape check. -/
def isEmail (s : String) : Bool :=
  match jsSplitOn '@' s with
  | [a, b] => a ≠ "" && b ≠ "" && b.data.contains '.'
  | _ => false

/-- Helper `validateEmail` from `utils/validators.js`: rejects a value that
fails the library's `isEmail` with a `BadInput` error naming the value. -/
def validateEmail (email : String) : Except AppError Unit :=
  if isEmail email then .ok ()
  else .error (badInput ("\"" ++ email ++ "\" doesn't look like a valid email address."))

/-- Helper `validatePassword` from `utils/validators.js`: at least 8
characters, one uppercase letter, one lowercase letter and one digit, each
failure with its own `BadInput` error (`!password` means the empty string). -/
def validatePassword (password : String) : Except AppError Unit :=
  if password = "" ∨ password.length < 8 then
    .error (badInput "Password needs to be at least 8 characters.")
  else if ¬ password.data.any Char.isUpper then
    .error (badInput "Password needs at least one uppercase letter.")
  else if ¬ password.data.any Char.isLower then
    .error (badInput "Password needs at least one lowercase letter.")
  else if ¬ password.data.any Char.isDigit then
    .error (badInput "Password needs at least one number.")
  else .ok ()

/-- Anti-enumeration message thrown by `login` for both a missing account and
a wrong password. -/
def loginFailMsg : String :=
  "Those credentials don't match anything in our system. Double-check and try again."

/-- Deactivation message thrown by `login` for an inactive account after the
password matched. -/
def deactivatedMsg : String :=
  "This account has been deactivated. Reach out to support if that's unexpected."

/-- Payload returned by the `login` resolver (GraphQL `AuthPayload`), carrying
the full user document the resolver returns. -/
structure AuthPayload where
  token : String
  token_type : String
  expires_in : String
  user : User
deriving Repr, DecidableEq

/-- Resolver `login` from `graphql/resolvers.js`: requires both fields, looks
the user up by username or email (password field included), throws the same
`badInput` for a missing user or a failed password comparison (the `||`
short-circuits, so no comparison runs when no user was found), throws a
distinct `badInput` for an inactive account, and otherwise returns a signed
token, the literal token type `"Bearer"`, the configured expiry string and the
user document. -/
def login (env : Env) (now : Nat) (db : List User) (usernameOrEmail password : String) :
    Except AppError AuthPayload := do
  requireField usernameOrEmail "usernameOrEmail"
  requireField password "password"
  match findByCredential db usernameOrEmail with
  | none => .error (badInput loginFailMsg)
  | some user =>
    if ¬ comparePassword user password then .error (badInput loginFailMsg)
    else if ¬ user.is_active then .error (badInput deactivatedMsg)
    else .ok { token := signToken env now user.id, token_type := "Bearer",
               expires_in := jwtExpiresIn env, user := user }

/-- Count of slow hash comparisons (`comparePassword` calls) performed by one
run of the `login` resolver, mirroring its control flow: the field checks run
first, and in `!user || !(await user.comparePassword(password))` the right
operand is evaluated only when a user was found. -/
def loginCompareCount (db : List User) (usernameOrEmail password : String) : Nat :=
  if jsTrim usernameOrEmail = "" then 0
  else if jsTrim password = "" then 0
  else
    match findByCredential db usernameOrEmail with
    | none => 0
    | some _ => 1

/-- GraphQL `User` type from `graphql/typeDefs.js`: the fields the schema
exposes to clients — identity, active flag and timestamps.  It has no
password field, so the serialized user can never include the secret. -/
structure UserView where
  id : Nat
  username : String
  email : String
  is_active : Bool
  created_at : Nat
  updated_at : Nat
deriving Repr, DecidableEq

/-- Projection of a user document through the GraphQL `User` type: only the
schema's fields survive serialization. -/
def toUserView (u : User) : UserView :=
  ⟨u.id, u.username, u.email, u.is_active, u.created_at, u.updated_at⟩

/-- GraphQL `AuthPayload` as serialized to the client: the user is projected
through the `User` type. -/
structure AuthPayloadView where
  token : String
  token_type : String
  expires_in : String
  user : UserView
deriving Repr, DecidableEq

/-- Serialization of the resolver's login payload through the GraphQL schema. -/
def serializeAuthPayload (p : AuthPayload) : AuthPayloadView :=
  ⟨p.token, p.token_type, p.expires_in, toUserView p.user⟩

/-- Errors a signup run can end in: an `AppError` thrown through the
`utils/errors.js` helpers, or a mongoose schema `ValidationError` raised by
`User.create` — a different class that carries no `BAD_USER_INPUT` code. -/
inductive SignupError where
  | app (e : AppError)
  | validation (msg : String)
deriving Repr, DecidableEq

/-- True exactly when a signup outcome is an error of the `BadInput` class
(an `AppError` with code `BAD_USER_INPUT`). -/
def isBadInputSignup (r : Except SignupError User) : Bool :=
  match r with
  | .error (.app e) => e.code == "BAD_USER_INPUT"
  | _ => false

/-- True exactly when a signup outcome is an error of any class — no record
was created. -/
def signupRejected (r : Except SignupError User) : Bool :=
  match r with
  | .error _ => true
  | .ok _ => false

/-- Username character rule `/^[a-zA-Z0-9_]+$/` shared by the resolver check
and the schema `match` validator. -/
def usernameCharsOk (s : String) : Bool :=
  s ≠ "" && s.data.all (fun c => c.isAlphanum || c == '_')

/-- Mongoose validation run by `User.create` per the `userSchema` of
`models/User.js` (setters `trim` and `lowercase` apply before validators):
required fields, username length 3–30 and character class, email shape,
password minimum length 8.  Returns the first failing validator's message. -/
def schemaValidateUser (username email password : String) : Option String :=
  let un := jsTrim username
  let em := jsTrim (jsToLower email)
  if un = "" then some "Username is required."
  else if un.length < 3 then some "Username must be at least 3 characters."
  else if un.length > 30 then some "Username can't be longer than 30 characters."
  else if ¬ usernameCharsOk un then
    some "Username can only have letters, numbers, and underscores."
  else if em = "" then some "Email is required."
  else if ¬ isEmail em then some "That doesn't look like a valid email."
  else if password = "" then some "Password is required."
  else if password.length < 8 then some "Password must be at least 8 characters."
  else none

/-- Mongoose `User.create`: runs schema validation (raising a
`ValidationError` on failure), then saves the new document, which triggers the
pre-save hashing hook.  `id`, `salt` and `now` make the system-assigned
object id, the fresh bcrypt salt and the clock explicit. -/
def userCreate (id salt now : Nat) (username email password : String) :
    Except SignupError User :=
  match schemaValidateUser username email password with
  | some msg => .error (.validation msg)
  | none => .ok (saveUser salt (newUserDoc id username (jsTrim (jsToLower email)) password now))

/-- Resolver `signup` from `graphql/resolvers.js`: required-field and format
checks, the resolver's own username checks (minimum length 3 and the character
regex — it has no maximum-length check of its own), a single uniqueness query
over both fields with distinct conflict errors, then `User.create`. -/
def signup (id salt now : Nat) (db : List User) (username email password : String) :
    Except SignupError User := do
  (requireField username "username").mapError .app
  (requireField email "email").mapError .app
  (requireField password "password").mapError .app
  (validateEmail email).mapError .app
  (validatePassword password).mapError .app
  if username.length < 3 then
    .error (.app (badInput "Username must be at least 3 characters."))
  else if ¬ usernameCharsOk username then
    .error (.app (badInput "Username can only have letters, numbers, and underscores — no spaces."))
  else
    match db.find? (fun u => u.username == jsTrim username || u.email == jsTrim (jsToLower email)) with
    | some taken =>
      if taken.username == jsTrim username then
        .error (.app (conflict "That username is already taken — try a different one."))
      else .error (.app (conflict "That email is already registered."))
    | none => userCreate id salt now (jsTrim username) (jsTrim email) password

/-- Employee document from `models/Employee.js`. -/
structure Employee where
  id : Nat
  first_name : String
  last_name : String
  email : String
  gender : String
  designation : String
  salary : Int
  date_of_joining : Nat
  department : String
  employee_photo : Option String
  created_at : Nat
  updated_at : Nat
deriving Repr, DecidableEq

/-- GraphQL `EmployeeList` result shape: total count plus a page of employees. -/
structure EmployeeList where
  total : Nat
  employees : List Employee
deriving Repr, DecidableEq

/-- Insert into a list kept sorted by `created_at` descending. -/
def insertByCreatedDesc (e : Employee) : List Employee → List Employee
  | [] => [e]
  | x :: xs =>
    if x.created_at ≤ e.created_at then e :: x :: xs
    else x :: insertByCreatedDesc e xs

/-- The `sort({ created_at: -1 })` ordering applied by the employee queries. -/
def sortByCreatedDesc (l : List Employee) : List Employee :=
  l.foldr insertByCreatedDesc []

/-- Resolver `getAllEmployees` from `graphql/resolvers.js`: requires auth,
defaults `page` to 1 and `limit` to 20 when omitted, clamps
`safePage = max(1, page)` and `safeLimit = min(100, max(1, limit))`, computes
`skip = (safePage - 1) * safeLimit`, and returns the total count with the
sorted page `skip`/`limit` window. -/
def getAllEmployees (ctx : Ctx) (db : List Employee) (page limit : Option Int) :
    Except AppError EmployeeList := do
  let _user ← requireAuth ctx
  let page := page.getD 1
  let limit := limit.getD 20
  let safePage := max 1 page
  let safeLimit := min 100 (max 1 limit)
  let skip := (safePage - 1) * safeLimit
  .ok ⟨db.length, (((sortByCreatedDesc db).drop skip.toNat).take safeLimit.toNat)⟩

/-- Shared concrete fixtures used by the witness theorems. -/
def sampleEnv : Env := ⟨"s3cret", none, 604800⟩

/-- Stored hash of the sample user's password `"hunter22"`. -/
def sampleHash : HashOutput := bcryptHash 12 7 "hunter22"

/-- Active sample account. -/
def sampleUser : User :=
  { id := 1, username := "alice", email := "alice@x.com",
    password := .hashed sampleHash, passwordModified := false,
    is_active := true, created_at := 0, updated_at := 0 }

/-- Deactivated sample account with password `"pw123456"`. -/
def sampleInactive : User :=
  { id := 2, username := "dora", email := "dora@x.com",
    password := .hashed (bcryptHash 12 5 "pw123456"), passwordModified := false,
    is_active := false, created_at := 0, updated_at := 0 }

/-- Sample credential store. -/
def sampleDb : List User := [sampleUser]

/-- C5: for every identity result, `requireAuth` throws the `Unauthenticated`
error exactly when the context carries no user, and when a user is present it
returns exactly that user; the `me` resolver returns the same. -/
theorem requireAuth_gate (ctx : Ctx) :
    (ctx.user = none →
      requireAuth ctx = .error unauth ∧ unauth.code = "UNAUTHENTICATED") ∧
    (∀ u, ctx.user = some u → requireAuth ctx = .ok u ∧ me ctx = .ok u) := by
  constructor
  · intro h
    simp [requireAuth, h, unauth]
  · intro u h
    simp [requireAuth, me, h]

/-- C5 witness: on a context carrying the sample user, `requireAuth` and `me`
both return exactly that user. -/
theorem requireAuth_gate_witness :
    requireAuth ⟨some sampleUser⟩ = .ok sampleUser ∧ me ⟨some sampleUser⟩ = .ok sampleUser :=
  (requireAuth_gate ⟨some sampleUser⟩).2 sampleUser rfl

/-- C7: verification succeeds on the hash of the same plaintext, fails on the
hash of any other plaintext, and hashing the same plaintext with two distinct
(fresh) salts gives two different outputs that both verify. -/
theorem bcrypt_verify_roundtrip (cost salt salt2 : Nat) (s s2 : String) :
    bcryptVerify s (bcryptHash cost salt s) = true ∧
    (s2 ≠ s → bcryptVerify s (bcryptHash cost salt s2) = false) ∧
    (salt ≠ salt2 →
      bcryptHash cost salt s ≠ bcryptHash cost salt2 s ∧
      bcryptVerify s (bcryptHash cost salt s) = true ∧
      bcryptVerify s (bcryptHash cost salt2 s) = true) := by
  refine ⟨?_, ?_, ?_⟩
  · simp [bcryptVerify, bcryptHash]
  · intro hne
    simp [bcryptVerify, bcryptHash, HashOutput.mk.injEq]
    intro h
    exact absurd h.symm hne
  · intro hne
    refine ⟨?_, by simp [bcryptVerify, bcryptHash], by simp [bcryptVerify, bcryptHash]⟩
    simp [bcryptHash, HashOutput.mk.injEq]
    intro h
    exact absurd h hne

/-- C7 witness: concrete roundtrip at cost 12, salts 7 and 8, plaintexts
`"hunter22"` and `"other-pw"`. -/
theorem bcrypt_verify_roundtrip_witness :
    bcryptVerify "hunter22" (bcryptHash 12 7 "hunter22") = true ∧
    bcryptVerify "hunter22" (bcryptHash 12 7 "other-pw") = false ∧
    bcryptHash 12 7 "hunter22" ≠ bcryptHash 12 8 "hunter22" ∧
    bcryptVerify "hunter22" (bcryptHash 12 8 "hunter22") = true := by
  have h := bcrypt_verify_roundtrip 12 7 8 "hunter22" "other-pw"
  exact ⟨h.1, h.2.1 (by decide), (h.2.2 (by decide)).1, (h.2.2 (by decide)).2.2⟩

/-- C4 counterexample: a well-formed login against an empty credential store
performs zero hash comparisons, not one — `!user || !(await
user.comparePassword(password))` short-circuits when no user was found, and no
dummy-hash comparison exists anywhere in the resolver. -/
theorem login_compare_count_counterexample :
    jsTrim "alice" ≠ "" ∧ jsTrim "password123" ≠ "" ∧
    findByCredential [] "alice" = none ∧
    loginCompareCount [] "alice" "password123" = 0 := by
  refine ⟨by decide, by decide, by rfl, by rfl⟩

/-- C4 amended: for every well-formed login request, the hash comparison runs
exactly once when a credential record was found and zero times when none was
found; the two failure paths therefore do not perform the same hashing work. -/
theorem login_compare_count_amended (db : List User) (usernameOrEmail password : String)
    (hu : jsTrim usernameOrEmail ≠ "") (hp : jsTrim password ≠ "") :
    loginCompareCount db usernameOrEmail password =
      if (findByCredential db usernameOrEmail).isSome then 1 else 0 := by
  simp only [loginCompareCount, if_neg hu, if_neg hp]
  cases h : findByCredential db usernameOrEmail <;> simp [h]

/-- C4 amended witness: one comparison when the sample user is found. -/
theorem login_compare_count_amended_witness :
    loginCompareCount sampleDb "alice" "hunter22" = if (findByCredential sampleDb "alice").isSome then 1 else 0 :=
  login_compare_count_amended sampleDb "alice" "hunter22" (by decide) (by decide)

/-- C8: the seed script persists its sample users through `User.insertMany`,
which does not trigger the `save` middleware, so the pre-save hashing hook
never runs and a reachable persisted state stores the plaintext secret
`"Admin1234"`.  This violates the hashed-secret invariant the claim states —
an invariant `models/User.js` itself documents — and it even contradicts
`scripts/seed.js`'s own note that one can log in with `admin / Admin1234`:
`comparePassword` against the plaintext record returns false. -/
theorem seed_insertMany_plaintext :
    PersistedUser (insertManyUser 1 "admin" "admin@comp3133.ca" "Admin1234" 0) ∧
    (insertManyUser 1 "admin" "admin@comp3133.ca" "Admin1234" 0).password =
      .plain "Admin1234" ∧
    (insertManyUser 1 "admin" "admin@comp3133.ca" "Admin1234" 0).password.isHashed = false ∧
    comparePassword (insertManyUser 1 "admin" "admin@comp3133.ca" "Admin1234" 0) "Admin1234" =
      false :=
  ⟨PersistedUser.insert_many 1 "admin" "admin@comp3133.ca" "Admin1234" 0, rfl, rfl, rfl⟩

/-- Helper: a string whose trim is nonempty is itself nonempty. -/
theorem ne_empty_of_trim_ne (s : String) (h : jsTrim s ≠ "") : s ≠ "" := by
  intro he
  subst he
  exact h rfl

/-- C1: for every well-formed login request, the no-matching-record path and
the failed-password-verification path both fail with the very same
`BadInput`-class `AppError` — identical message and identical code. -/
theorem login_anti_enumeration (env : Env) (now : Nat) (db : List User)
    (usernameOrEmail password : String)
    (hu : jsTrim usernameOrEmail ≠ "") (hp : jsTrim password ≠ "") :
    (findByCredential db usernameOrEmail = none →
      login env now db usernameOrEmail password = .error (badInput loginFailMsg)) ∧
    (∀ u, findByCredential db usernameOrEmail = some u → comparePassword u password = false →
      login env now db usernameOrEmail password = .error (badInput loginFailMsg)) ∧
    (badInput loginFailMsg).code = "BAD_USER_INPUT" := by
  have hu0 := ne_empty_of_trim_ne _ hu
  have hp0 := ne_empty_of_trim_ne _ hp
  refine ⟨?_, ?_, rfl⟩
  · intro h
    simp [login, requireField, hu, hu0, hp, hp0, h, bind, Except.bind]
  · intro u hfind hcmp
    simp [login, requireField, hu, hu0, hp, hp0, hfind, hcmp, bind, Except.bind]

/-- C1 witness: a nonexistent identifier and a wrong password against the
sample store produce the identical error. -/
theorem login_anti_enumeration_witness :
    login sampleEnv 0 sampleDb "nobody" "password123" = .error (badInput loginFailMsg) ∧
    login sampleEnv 0 sampleDb "alice" "wrong-password" = .error (badInput loginFailMsg) :=
  ⟨(login_anti_enumeration sampleEnv 0 sampleDb "nobody" "password123"
      (by decide) (by decide)).1 (by rfl),
   (login_anti_enumeration sampleEnv 0 sampleDb "alice" "wrong-password"
      (by decide) (by decide)).2.1 sampleUser (by rfl) (by rfl)⟩

/-- C6: when the record is found and the password verifies but the account is
inactive, login fails with a distinct `BadInput`-class error naming the
deactivation; the error differs from the anti-enumeration error, and with a
wrong password the generic error fires even for an inactive account — the
inactive check runs only after the password check succeeded. -/
theorem login_inactive_distinct (env : Env) (now : Nat) (db : List User)
    (usernameOrEmail password : String) (u : User)
    (hu : jsTrim usernameOrEmail ≠ "") (hp : jsTrim password ≠ "")
    (hfind : findByCredential db usernameOrEmail = some u) :
    (comparePassword u password = true → u.is_active = false →
      login env now db usernameOrEmail password = .error (badInput deactivatedMsg)) ∧
    badInput deactivatedMsg ≠ badInput loginFailMsg ∧
    (badInput deactivatedMsg).code = "BAD_USER_INPUT" ∧
    (comparePassword u password = false →
      login env now db usernameOrEmail password = .error (badInput loginFailMsg)) := by
  have hu0 := ne_empty_of_trim_ne _ hu
  have hp0 := ne_empty_of_trim_ne _ hp
  refine ⟨?_, by decide, rfl, ?_⟩
  · intro hcmp hact
    simp [login, requireField, hu, hu0, hp, hp0, hfind, hcmp, hact, bind, Except.bind]
  · intro hcmp
    simp [login, requireField, hu, hu0, hp, hp0, hfind, hcmp, bind, Except.bind]

/-- C6 witness: the deactivated sample account with its correct password gets
the deactivation error; with a wrong password it gets the generic error. -/
theorem login_inactive_distinct_witness :
    login sampleEnv 0 [sampleInactive] "dora" "pw123456" = .error (badInput deactivatedMsg) ∧
    login sampleEnv 0 [sampleInactive] "dora" "wrong-password" = .error (badInput loginFailMsg) :=
  ⟨(login_inactive_distinct sampleEnv 0 [sampleInactive] "dora" "pw123456" sampleInactive
      (by decide) (by decide) (by rfl)).1 (by rfl) (by rfl),
   (login_inactive_distinct sampleEnv 0 [sampleInactive] "dora" "wrong-password" sampleInactive
      (by decide) (by decide) (by rfl)).2.2.2 (by rfl)⟩

/-- C3: a fully successful login returns a token signed for the account id,
the literal token type `"Bearer"`, the configured expiry string, and — after
serialization through the GraphQL `User` type, which has no password field —
an account made of the identity fields only, never the stored secret. -/
theorem login_success_payload (env : Env) (now : Nat) (db : List User)
    (usernameOrEmail password : String) (u : User)
    (hu : jsTrim usernameOrEmail ≠ "") (hp : jsTrim password ≠ "")
    (hfind : findByCredential db usernameOrEmail = some u)
    (hcmp : comparePassword u password = true) (hact : u.is_active = true) :
    login env now db usernameOrEmail password =
      .ok ⟨signToken env now u.id, "Bearer", jwtExpiresIn env, u⟩ ∧
    serializeAuthPayload ⟨signToken env now u.id, "Bearer", jwtExpiresIn env, u⟩ =
      ⟨signToken env now u.id, "Bearer", jwtExpiresIn env,
        ⟨u.id, u.username, u.email, u.is_active, u.created_at, u.updated_at⟩⟩ := by
  have hu0 := ne_empty_of_trim_ne _ hu
  have hp0 := ne_empty_of_trim_ne _ hp
  constructor
  · simp [login, requireField, hu, hu0, hp, hp0, hfind, hcmp, hact, bind, Except.bind]
  · rfl

/-- C3 witness: the sample user logs in successfully and the serialized
payload carries only identity fields. -/
theorem login_success_payload_witness :
    login sampleEnv 0 sampleDb "alice" "hunter22" =
      .ok ⟨signToken sampleEnv 0 sampleUser.id, "Bearer", jwtExpiresIn sampleEnv, sampleUser⟩ ∧
    serializeAuthPayload
        ⟨signToken sampleEnv 0 sampleUser.id, "Bearer", jwtExpiresIn sampleEnv, sampleUser⟩ =
      ⟨signToken sampleEnv 0 sampleUser.id, "Bearer", jwtExpiresIn sampleEnv,
        ⟨sampleUser.id, sampleUser.username, sampleUser.email, sampleUser.is_active,
          sampleUser.created_at, sampleUser.updated_at⟩⟩ :=
  login_success_payload sampleEnv 0 sampleDb "alice" "hunter22" sampleUser
    (by decide) (by decide) (by rfl) (by rfl) (by rfl)

/-- C2: the context resolver yields anonymous when the header lacks the
`Bearer ` scheme (including a missing header), when the remainder trims to
empty, when token verification fails for any reason, and when the verified
subject has no record or an inactive one; it yields the authenticated account
otherwise.  It is a total function, so none of these paths raises an error. -/
theorem buildContext_identity_cases (env : Env) (now : Nat) (db : List User)
    (authorization : Option String) :
    (jsStartsWith (authorization.getD "") "Bearer " = false →
      buildContext env now db authorization = ⟨none⟩) ∧
    (jsTrim ((authorization.getD "").drop 7) = "" →
      buildContext env now db authorization = ⟨none⟩) ∧
    (∀ e, jwtVerify env.jwt_secret now (jsTrim ((authorization.getD "").drop 7)) = .error e →
      buildContext env now db authorization = ⟨none⟩) ∧
    (∀ p, jwtVerify env.jwt_secret now (jsTrim ((authorization.getD "").drop 7)) = .ok p →
      findById db p.userId = none → buildContext env now db authorization = ⟨none⟩) ∧
    (∀ p u, jwtVerify env.jwt_secret now (jsTrim ((authorization.getD "").drop 7)) = .ok p →
      findById db p.userId = some u → u.is_active = false →
      buildContext env now db authorization = ⟨none⟩) ∧
    (∀ p u, jsStartsWith (authorization.getD "") "Bearer " = true →
      jwtVerify env.jwt_secret now (jsTrim ((authorization.getD "").drop 7)) = .ok p →
      findById db p.userId = some u → u.is_active = true →
      buildContext env now db authorization = ⟨some u⟩) := by
  have hempty : ∀ p : TokenPayload, jwtVerify env.jwt_secret now "" ≠ .ok p := by
    intro p h
    have : jwtVerify env.jwt_secret now "" = .error .malformed := rfl
    rw [this] at h
    cases h
  refine ⟨?_, ?_, ?_, ?_, ?_, ?_⟩
  · intro hs
    simp [buildContext, hs]
  · intro ht
    by_cases hs : jsStartsWith (authorization.getD "") "Bearer " = true
    · simp [buildContext, hs, ht]
    · simp [buildContext, hs]
  · intro e he
    by_cases hs : jsStartsWith (authorization.getD "") "Bearer " = true
    · by_cases ht : jsTrim ((authorization.getD "").drop 7) = ""
      · simp [buildContext, hs, ht]
      · simp [buildContext, hs, ht, he]
    · simp [buildContext, hs]
  · intro p hv hf
    by_cases hs : jsStartsWith (authorization.getD "") "Bearer " = true
    · by_cases ht : jsTrim ((authorization.getD "").drop 7) = ""
      · simp [buildContext, hs, ht]
      · simp [buildContext, hs, ht, hv, hf]
    · simp [buildContext, hs]
  · intro p u hv hf ha
    by_cases hs : jsStartsWith (authorization.getD "") "Bearer " = true
    · by_cases ht : jsTrim ((authorization.getD "").drop 7) = ""
      · simp [buildContext, hs, ht]
      · simp [buildContext, hs, ht, hv, hf, ha]
    · simp [buildContext, hs]
  · intro p u hs hv hf ha
    have ht : jsTrim ((authorization.getD "").drop 7) ≠ "" := by
      intro hcontra
      rw [hcontra] at hv
      exact hempty p hv
    simp [buildContext, hs, ht, hv, hf, ha]

/-- C2 witness: a freshly signed token for the sample user authenticates; the
theorem's non-scheme, empty-token, bad-token and unknown-subject hypotheses
are exercised by the concrete equalities below it. -/
theorem buildContext_identity_cases_witness :
    buildContext sampleEnv 0 sampleDb (some ("Bearer " ++ signToken sampleEnv 0 1)) =
      ⟨some sampleUser⟩ :=
  (buildContext_identity_cases sampleEnv 0 sampleDb
      (some ("Bearer " ++ signToken sampleEnv 0 1))).2.2.2.2.2
    ⟨1, 0, 604800⟩ sampleUser (by decide) (by rfl) (by rfl) (by rfl)

/-- Helper: a username character (letter, digit or underscore) is never
whitespace. -/
theorem wordChar_not_whitespace (c : Char) (h : (c.isAlphanum || c == '_') = true) :
    c.isWhitespace = false := by
  by_contra hw
  have hw2 : c.isWhitespace = true := by
    cases hcw : c.isWhitespace
    · exact absurd hcw hw
    · rfl
  have hcs : c = ' ' ∨ c = '\t' ∨ c = '\r' ∨ c = '\n' := by
    simpa [Char.isWhitespace, or_assoc] using hw2
  rcases hcs with h1 | h1 | h1 | h1 <;> subst h1 <;> exact absurd h (by decide)

/-- Helper: dropping leading whitespace from a whitespace-free list is the
identity. -/
theorem dropWhile_ws_eq_self (l : List Char) (h : ∀ c ∈ l, c.isWhitespace = false) :
    l.dropWhile Char.isWhitespace = l := by
  cases l with
  | nil => rfl
  | cons a t => simp [List.dropWhile_cons, h a (by simp)]

/-- Helper: trimming a whitespace-free string is the identity. -/
theorem jsTrim_eq_self (s : String) (h : ∀ c ∈ s.data, c.isWhitespace = false) :
    jsTrim s = s := by
  unfold jsTrim
  rw [dropWhile_ws_eq_self s.data h,
    dropWhile_ws_eq_self _ (by intro c hc; exact h c (List.mem_reverse.mp hc)),
    List.reverse_reverse]

/-- Helper: a username passing the character rule is unchanged by `trim`. -/
theorem jsTrim_of_charsOk (s : String) (h : usernameCharsOk s = true) : jsTrim s = s := by
  simp [usernameCharsOk] at h
  apply jsTrim_eq_self
  intro c hc
  refine wordChar_not_whitespace c ?_
  rcases h.2 c hc with h1 | h1
  · simp [h1]
  · subst h1
    decide

/-- Helper: a username passing the character rule is nonempty. -/
theorem ne_empty_of_charsOk (s : String) (h : usernameCharsOk s = true) : s ≠ "" := by
  simp [usernameCharsOk] at h
  exact h.1

/-- C9 counterexample: a 31-character username made only of letters, with a
valid email and a password that passes every check of `validatePassword`, is
rejected via the schema's maxlength validator — a mongoose `ValidationError`,
not a `BadInput`-class `AppError` — because the resolver has no
maximum-length check of its own. -/
theorem signup_username_max_counterexample :
    validatePassword "Password1" = .ok () ∧
    signup 2 9 0 [] (String.mk (List.replicate 31 'a')) "a@b.com" "Password1" =
      .error (.validation "Username can't be longer than 30 characters.") ∧
    isBadInputSignup
        (signup 2 9 0 [] (String.mk (List.replicate 31 'a')) "a@b.com" "Password1") = false ∧
    usernameCharsOk (String.mk (List.replicate 31 'a')) = true :=
  ⟨by rfl, by rfl, by rfl, by decide⟩

/-- C9 amended: a username shorter than 3 characters or containing a character
outside letters, digits and underscore is rejected by the resolver with a
`BadInput`-class error before any record is created; a username longer than 30
characters is also rejected before any record is created, but by the schema
validation inside `User.create`, not with a `BadInput`-class error. -/
theorem signup_username_validation_amended (id salt now : Nat) (db : List User)
    (username email password : String)
    (hun : jsTrim username ≠ "") (hem : jsTrim email ≠ "") (hpw : jsTrim password ≠ "")
    (hemail : isEmail email = true) (hpass : validatePassword password = .ok ()) :
    (username.length < 3 →
      signup id salt now db username email password =
        .error (.app (badInput "Username must be at least 3 characters."))) ∧
    (¬ username.length < 3 → usernameCharsOk username = false →
      signup id salt now db username email password =
        .error (.app (badInput
          "Username can only have letters, numbers, and underscores — no spaces."))) ∧
    (30 < username.length → usernameCharsOk username = true →
      signupRejected (signup id salt now db username email password) = true) := by
  have hun0 := ne_empty_of_trim_ne _ hun
  have hem0 := ne_empty_of_trim_ne _ hem
  have hpw0 := ne_empty_of_trim_ne _ hpw
  refine ⟨?_, ?_, ?_⟩
  · intro hlen
    simp [signup, requireField, hun, hun0, hem, hem0, hpw, hpw0, validateEmail, hemail,
      hpass, hlen, bind, Except.bind, Except.mapError]
  · intro hlen hchars
    simp [signup, requireField, hun, hun0, hem, hem0, hpw, hpw0, validateEmail, hemail,
      hpass, hlen, hchars, bind, Except.bind, Except.mapError]
  · intro hlen hchars
    have htr : jsTrim username = username := jsTrim_of_charsOk username hchars
    have hne : username ≠ "" := ne_empty_of_charsOk username hchars
    have hlen3 : ¬ username.length < 3 := by omega
    simp [signup, requireField, hun, hun0, hem, hem0, hpw, hpw0, validateEmail, hemail,
      hpass, hlen3, hchars, bind, Except.bind, Except.mapError, htr]
    rcases hfind : db.find? (fun u => u.username == username ||
        u.email == jsTrim (jsToLower email)) with _ | taken
    · simp [hfind, userCreate, schemaValidateUser, htr, hne, hlen3, hlen, signupRejected]
    · simp only [hfind]
      by_cases h2 : taken.username = username
      · simp [h2, signupRejected, hne]
      · simp [h2, signupRejected, hne]

/-- C9 amended witness: a 2-character username gets the resolver's
`BadInput`-class error, and a 31-character one is rejected (no record). -/
theorem signup_username_validation_amended_witness :
    signup 2 9 0 [] "ab" "a@b.com" "Password1" =
      .error (.app (badInput "Username must be at least 3 characters.")) ∧
    signupRejected (signup 2 9 0 [] (String.mk (List.replicate 31 'a')) "a@b.com" "Password1") =
      true :=
  ⟨(signup_username_validation_amended 2 9 0 [] "ab" "a@b.com" "Password1"
      (by decide) (by decide) (by decide) (by rfl) (by rfl)).1 (by decide),
   (signup_username_validation_amended 2 9 0 [] (String.mk (List.replicate 31 'a'))
      "a@b.com" "Password1"
      (by decide) (by decide) (by decide) (by rfl) (by rfl)).2.2 (by decide) (by decide)⟩

/-- C10: for every authenticated call, with any integer page and limit (or
omitted, defaulting to 1 and 20), the effective limit lies in 1..100, the
effective page is at least 1, the skip equals `(safePage - 1) * safeLimit` and
is never negative, and the returned employees list never exceeds 100 entries. -/
theorem getAllEmployees_pagination (ctx : Ctx) (db : List Employee)
    (page limit : Option Int) (u : User) (hctx : ctx.user = some u) :
    1 ≤ min 100 (max 1 (limit.getD 20)) ∧
    min 100 (max 1 (limit.getD 20)) ≤ 100 ∧
    1 ≤ max 1 (page.getD 1) ∧
    0 ≤ (max 1 (page.getD 1) - 1) * min 100 (max 1 (limit.getD 20)) ∧
    getAllEmployees ctx db page limit =
      .ok ⟨db.length,
        ((sortByCreatedDesc db).drop
            ((max 1 (page.getD 1) - 1) * min 100 (max 1 (limit.getD 20))).toNat).take
          (min 100 (max 1 (limit.getD 20))).toNat⟩ ∧
    (∀ out, getAllEmployees ctx db page limit = .ok out → out.employees.length ≤ 100) := by
  have hsl1 : (1 : Int) ≤ min 100 (max 1 (limit.getD 20)) :=
    le_min (by norm_num) (le_max_left 1 _)
  have hsl100 : min (100 : Int) (max 1 (limit.getD 20)) ≤ 100 := min_le_left _ _
  have hsp1 : (1 : Int) ≤ max 1 (page.getD 1) := le_max_left 1 _
  have hskip : (0 : Int) ≤ (max 1 (page.getD 1) - 1) * min 100 (max 1 (limit.getD 20)) :=
    mul_nonneg (by omega) (by omega)
  have heq : getAllEmployees ctx db page limit =
      .ok ⟨db.length,
        ((sortByCreatedDesc db).drop
            ((max 1 (page.getD 1) - 1) * min 100 (max 1 (limit.getD 20))).toNat).take
          (min 100 (max 1 (limit.getD 20))).toNat⟩ := by
    simp [getAllEmployees, requireAuth, hctx, bind, Except.bind]
  refine ⟨hsl1, hsl100, hsp1, hskip, heq, ?_⟩
  intro out hout
  rw [heq] at hout
  cases hout
  calc (((sortByCreatedDesc db).drop
            ((max 1 (page.getD 1) - 1) * min 100 (max 1 (limit.getD 20))).toNat).take
          (min 100 (max 1 (limit.getD 20))).toNat).length
      ≤ (min 100 (max 1 (limit.getD 20))).toNat := by
        exact List.length_take_le _ _
    _ ≤ 100 := Int.toNat_le.mpr hsl100

/-- C10 witness: an authenticated call with page −5 and limit 99999 on an
empty store clamps to page 1, limit 100, skip 0 and returns at most 100
entries (here zero). -/
theorem getAllEmployees_pagination_witness :
    getAllEmployees ⟨some sampleUser⟩ [] (some (-5)) (some 99999) =
      .ok ⟨(0 : Nat), ([] : List Employee)⟩ ∧
    (1 : Int) ≤ min 100 (max 1 ((some (99999 : Int)).getD 20)) := by
  have h := getAllEmployees_pagination ⟨some sampleUser⟩ [] (some (-5)) (some 99999)
    sampleUser rfl
  refine ⟨?_, h.1⟩
  have := h.2.2.2.2.1
  simpa using this
